import Mathlib

/-!
Shallow embedding of the SoloBoss AI backend handlers (tRPC + drizzle over
Postgres) and proofs about them.

The relational store is modelled as a record of lists of rows, one list per
table, in insertion order.  Timestamps are natural numbers (milliseconds).
Each handler is translated directly from its TypeScript source:

* `updateTask`       — src/server/src/handlers/update_task.ts
* `updateDocument`   — the drizzle implementation of updateDocument
* `deleteTask`, `deleteDocument`, `getDocuments` — handlers bundled in
  src/server/src/handlers/log_activity.ts
* `sendMessage`, `generateAIResponse` — src/server/src/handlers/send_message.ts
* `getDashboardStats` — src/server/src/handlers/get_dashboard_stats.ts
* `getChatHistory`   — src/server/src/handlers/get_chat_history.ts
* `getRecentActivity` — src/server/src/handlers/get_recent_activity.ts
* `getDocumentsRoute` — the getDocuments procedure of src/server/src/index.ts

Fallible handlers return `Except String`; `Math.random` and `randomUUID` are
passed in as explicit parameters; `new Date()` becomes an explicit `now`
parameter.  An optional input field is `Option`; a field that is both
optional and nullable is `Option (Option _)` (outer layer: key present in the
partial input; inner layer: JSON null).  The update handlers additionally
report the sequence of store statements they issue (`StoreOp`), so that
read-then-write and single-statement implementations can be told apart.
-/

namespace SoloBoss

/-- Task status enum (`task_status` in db/schema.ts). -/
inductive TaskStatus where
  | pending
  | in_progress
  | completed
deriving DecidableEq, Repr

/-- Task priority enum (`task_priority` in db/schema.ts). -/
inductive TaskPriority where
  | low
  | medium
  | high
deriving DecidableEq, Repr

/-- Activity entity type enum (`activity_entity_type` in db/schema.ts). -/
inductive ActivityEntityType where
  | task
  | document
  | chat
  | profile
deriving DecidableEq, Repr

/-- Row of `users` (db/schema.ts). -/
structure User where
  id : String
  email : String
  first_name : String
  last_name : String
  profile_picture_url : Option String
  created_at : Nat
  updated_at : Nat
deriving DecidableEq, Repr

/-- Row of `tasks` (db/schema.ts). -/
structure Task where
  id : String
  user_id : String
  title : String
  description : Option String
  status : TaskStatus
  priority : TaskPriority
  due_date : Option Nat
  created_at : Nat
  updated_at : Nat
deriving DecidableEq, Repr

/-- Row of `documents` (db/schema.ts). -/
structure Document where
  id : String
  user_id : String
  name : String
  description : Option String
  file_url : String
  file_type : String
  file_size : Nat
  folder_path : Option String
  created_at : Nat
  updated_at : Nat
deriving DecidableEq, Repr

/-- Row of `ai_agents` (db/schema.ts). -/
structure AIAgent where
  id : String
  name : String
  description : String
  avatar_url : Option String
  specialization : String
  is_active : Bool
  created_at : Nat
deriving DecidableEq, Repr

/-- Row of `chat_messages` (db/schema.ts). -/
structure ChatMessage where
  id : String
  user_id : String
  agent_id : String
  message : String
  response : Option String
  is_user_message : Bool
  created_at : Nat
deriving DecidableEq, Repr

/-- Row of `activity_log` (db/schema.ts). -/
structure ActivityLog where
  id : String
  user_id : String
  action : String
  description : String
  entity_type : Option ActivityEntityType
  entity_id : Option String
  created_at : Nat
deriving DecidableEq, Repr

/-- The relational store: one list of rows per table, in insertion order. -/
structure DB where
  users : List User
  tasks : List Task
  documents : List Document
  aiAgents : List AIAgent
  chatMessages : List ChatMessage
  activityLog : List ActivityLog
deriving DecidableEq, Repr

/-- A store statement issued by a handler.  `byId`/`byOwner` record whether
the statement's WHERE clause constrains the primary key and the `user_id`
column. -/
inductive StoreOp where
  | select (table : String) (byId : Bool) (byOwner : Bool)
  | insert (table : String)
  | update (table : String) (byId : Bool) (byOwner : Bool)
  | delete (table : String) (byId : Bool) (byOwner : Bool)
deriving DecidableEq, Repr

/-- `updateTaskInputSchema` of schema.ts: `id` required, all other fields
optional; `description` and `due_date` are additionally nullable. -/
structure UpdateTaskInput where
  id : String
  title : Option String
  description : Option (Option String)
  status : Option TaskStatus
  priority : Option TaskPriority
  due_date : Option (Option Nat)
deriving DecidableEq, Repr

/-- `updateDocumentInputSchema` of schema.ts: `id` required; `name`,
`description`, `folder_path` optional, the latter two nullable. -/
structure UpdateDocumentInput where
  id : String
  name : Option String
  description : Option (Option String)
  folder_path : Option (Option String)
deriving DecidableEq, Repr

/-- `sendMessageInputSchema` of schema.ts. -/
structure SendMessageInput where
  agent_id : String
  message : String
deriving DecidableEq, Repr

/-- `dashboardStatsSchema` of schema.ts. -/
structure DashboardStats where
  total_tasks : Nat
  completed_tasks : Nat
  pending_tasks : Nat
  total_documents : Nat
  recent_activity_count : Nat
deriving DecidableEq, Repr

/-- The `updateData` object built by updateTask: `updated_at` is always set
to the current time, every other column is written only when the input key
is present (`input.x !== undefined`). -/
def applyTaskUpdate (now : Nat) (input : UpdateTaskInput) (t : Task) : Task :=
  { t with
    updated_at := now
    title := input.title.getD t.title
    description := input.description.getD t.description
    status := input.status.getD t.status
    priority := input.priority.getD t.priority
    due_date := input.due_date.getD t.due_date }

/-- WHERE clause shared by updateTask's select and update:
`and(eq(tasksTable.id, input.id), eq(tasksTable.user_id, userId))`. -/
def taskOwnedPred (taskId userId : String) (t : Task) : Bool :=
  t.id == taskId && t.user_id == userId

/-- updateTask (src/server/src/handlers/update_task.ts): first selects the
row matching `id = input.id AND user_id = userId`; when no row matches it
throws `Task not found or access denied`; otherwise it issues an update with
the same combined predicate, setting only the provided fields plus
`updated_at`, and returns the first updated row (`result[0]`). -/
def updateTask (db : DB) (now : Nat) (userId : String) (input : UpdateTaskInput) :
    Except String Task × DB × List StoreOp :=
  match db.tasks.filter (taskOwnedPred input.id userId) with
  | [] =>
      (Except.error "Task not found or access denied", db,
        [StoreOp.select "tasks" true true])
  | t :: _ =>
      let newTasks := db.tasks.map fun r =>
        if taskOwnedPred input.id userId r then applyTaskUpdate now input r else r
      (Except.ok (applyTaskUpdate now input t), { db with tasks := newTasks },
        [StoreOp.select "tasks" true true, StoreOp.update "tasks" true true])

/-- The `updateData` object built by the drizzle updateDocument. -/
def applyDocumentUpdate (now : Nat) (input : UpdateDocumentInput) (d : Document) :
    Document :=
  { d with
    updated_at := now
    name := input.name.getD d.name
    description := input.description.getD d.description
    folder_path := input.folder_path.getD d.folder_path }

/-- WHERE clause of the document handlers:
`and(eq(documentsTable.id, id), eq(documentsTable.user_id, userId))`. -/
def documentOwnedPred (documentId userId : String) (d : Document) : Bool :=
  d.id == documentId && d.user_id == userId

/-- updateDocument (drizzle implementation): issues a single update whose
WHERE clause combines `id = input.id` and `user_id = userId`, writing only
the provided fields plus `updated_at`; when the update returns no rows it
throws `Document not found or access denied`, otherwise it returns the
first returned row. -/
def updateDocument (db : DB) (now : Nat) (userId : String)
    (input : UpdateDocumentInput) : Except String Document × DB × List StoreOp :=
  match db.documents.filter (documentOwnedPred input.id userId) with
  | [] =>
      (Except.error "Document not found or access denied", db,
        [StoreOp.update "documents" true true])
  | d :: _ =>
      let newDocuments := db.documents.map fun r =>
        if documentOwnedPred input.id userId r then applyDocumentUpdate now input r
        else r
      (Except.ok (applyDocumentUpdate now input d),
        { db with documents := newDocuments },
        [StoreOp.update "documents" true true])

/-- deleteTask (bundled in log_activity.ts): one delete with the combined
`id AND user_id` predicate; returns `rowCount > 0`. -/
def deleteTask (db : DB) (userId taskId : String) : Bool × DB :=
  let rowCount := (db.tasks.filter (taskOwnedPred taskId userId)).length
  (rowCount > 0,
    { db with tasks := db.tasks.filter fun t => !taskOwnedPred taskId userId t })

/-- deleteDocument (bundled in log_activity.ts): first selects the row with
the combined predicate and returns `false` when nothing matches; otherwise
deletes with the same predicate and returns `rowCount > 0`. -/
def deleteDocument (db : DB) (userId documentId : String) : Bool × DB :=
  match db.documents.filter (documentOwnedPred documentId userId) with
  | [] => (false, db)
  | _ :: _ =>
      let rowCount := (db.documents.filter (documentOwnedPred documentId userId)).length
      (rowCount > 0,
        { db with documents :=
            db.documents.filter fun d => !documentOwnedPred documentId userId d })

/-- `orderBy(desc(created_at))`: newest first.  `a` may precede `b` exactly
when `b`'s key is at most `a`'s. -/
def newestFirst (f : α → Nat) (a b : α) : Prop :=
  f b ≤ f a

instance (f : α → Nat) : DecidableRel (newestFirst f) := fun a b =>
  inferInstanceAs (Decidable (f b ≤ f a))

instance (f : α → Nat) : IsTotal α (newestFirst f) :=
  ⟨fun a b => Nat.le_total (f b) (f a)⟩

instance (f : α → Nat) : IsTrans α (newestFirst f) :=
  ⟨fun _ _ _ h h' => Nat.le_trans h' h⟩

/-- The rows a select with `orderBy(desc(created_at))` returns, given the
rows its WHERE clause matched in insertion order. -/
def orderByCreatedAtDesc (f : α → Nat) (rows : List α) : List α :=
  rows.insertionSort (newestFirst f)

/-- getDocuments (bundled in log_activity.ts): always filters by
`user_id = userId`; when `folderPath` was passed, `null` adds
`isNull(folder_path)` and a string adds `eq(folder_path, folderPath)`;
results are ordered by `created_at` descending. -/
def getDocuments (db : DB) (userId : String) (folderPath : Option (Option String)) :
    List Document :=
  let cond : Document → Bool := fun d =>
    d.user_id == userId &&
      match folderPath with
      | none => true
      | some none => d.folder_path.isNone
      | some (some p) => d.folder_path == some p
  orderByCreatedAtDesc Document.created_at (db.documents.filter cond)

/-- Modelled from the spec: the getTasks handler file is absent from src
(only src/server/src/tests/get_tasks.test.ts and the route registration
remain).  Per §4.1 read-list and the tests, it returns the caller's tasks
(`user_id = userId`) ordered by `created_at` descending, with no further
filter. -/
def getTasks (db : DB) (userId : String) : List Task :=
  orderByCreatedAtDesc Task.created_at (db.tasks.filter fun t => t.user_id == userId)

/-- getChatHistory (src/server/src/handlers/get_chat_history.ts): messages
with `user_id = userId AND agent_id = agentId`, ordered by `created_at`
descending, limited to `limit` rows (default 50 supplied by the router). -/
def getChatHistory (db : DB) (userId agentId : String) (limit : Nat) :
    List ChatMessage :=
  (orderByCreatedAtDesc ChatMessage.created_at
      (db.chatMessages.filter fun m => m.user_id == userId && m.agent_id == agentId)).take
    limit

/-- getRecentActivity (src/server/src/handlers/get_recent_activity.ts):
activity rows with `user_id = userId`, ordered by `created_at` descending,
limited to `limit` rows (default 20 supplied by the router). -/
def getRecentActivity (db : DB) (userId : String) (limit : Nat) : List ActivityLog :=
  (orderByCreatedAtDesc ActivityLog.created_at
      (db.activityLog.filter fun a => a.user_id == userId)).take limit

/-- The getDocuments procedure of src/server/src/index.ts: its input schema
declares `folderPath: z.string().optional()` — an optional string that
cannot carry null — and the procedure forwards `input.folderPath` to the
handler unchanged, so an omitted argument stays omitted and a string stays
a string. -/
def getDocumentsRoute (db : DB) (userId : String) (folderPath : Option String) :
    List Document :=
  getDocuments db userId (folderPath.map some)

/-- The `responses.productivity` pool of generateAIResponse. -/
def productivityResponses : List String :=
  ["I can help you organize your tasks and improve your workflow.",
   "Let me suggest some productivity techniques that might work for you.",
   "Have you considered breaking this down into smaller, manageable steps?"]

/-- The `responses.document` pool of generateAIResponse. -/
def documentResponses : List String :=
  ["I can help you organize and manage your documents effectively.",
   "Would you like me to suggest a better filing system for your documents?",
   "I can assist with document formatting and organization."]

/-- The `responses.general` pool of generateAIResponse, also the fallback. -/
def generalResponses : List String :=
  ["I'm here to help you with whatever you need.",
   "Let me think about the best way to assist you with that.",
   "That's an interesting question. Let me provide some guidance."]

/-- `responses[specialization] || responses.general`. -/
def responsesFor (specialization : String) : List String :=
  if specialization == "productivity" then productivityResponses
  else if specialization == "document" then documentResponses
  else if specialization == "general" then generalResponses
  else generalResponses

/-- generateAIResponse (send_message.ts): picks one sentence of the pool
for the agent's specialization.  `Math.floor(Math.random() * pool.length)`
is modelled by `rand % pool.length` for an arbitrary `rand`. -/
def generateAIResponse (userMessage : String) (specialization : String)
    (rand : Nat) : String :=
  let responsePool := responsesFor specialization
  responsePool.getD (rand % responsePool.length) ""

/-- sendMessage (src/server/src/handlers/send_message.ts): validates in
order that the user exists, that the agent exists, and that the agent is
active — each failure throws before any insert; then inserts the user
message row (`response: null, is_user_message: true`), generates the
response, inserts the agent row carrying it, and returns the agent row.
`randomUUID()` for the two rows and `Math.random` are explicit
parameters. -/
def sendMessage (db : DB) (now : Nat) (userId : String) (input : SendMessageInput)
    (userMessageId aiMessageId : String) (rand : Nat) :
    Except String ChatMessage × DB :=
  if (db.users.filter fun u => u.id == userId).isEmpty then
    (Except.error ("User with id " ++ userId ++ " not found"), db)
  else
    match db.aiAgents.filter fun a => a.id == input.agent_id with
    | [] =>
        (Except.error ("AI agent with id " ++ input.agent_id ++ " not found"), db)
    | agent :: _ =>
        if !agent.is_active then
          (Except.error ("AI agent with id " ++ input.agent_id ++ " is not active"),
            db)
        else
          let userMessage : ChatMessage :=
            { id := userMessageId, user_id := userId, agent_id := input.agent_id,
              message := input.message, response := none, is_user_message := true,
              created_at := now }
          let db1 := { db with chatMessages := db.chatMessages ++ [userMessage] }
          let aiResponse := generateAIResponse input.message agent.specialization rand
          let aiMessage : ChatMessage :=
            { id := aiMessageId, user_id := userId, agent_id := input.agent_id,
              message := input.message, response := some aiResponse,
              is_user_message := false, created_at := now }
          (Except.ok aiMessage,
            { db1 with chatMessages := db1.chatMessages ++ [aiMessage] })

/-- Milliseconds per day; `sevenDaysAgo.setDate(getDate() - 7)` subtracts
seven of these from `now`. -/
def dayMs : Nat := 86400000

/-- getDashboardStats (src/server/src/handlers/get_dashboard_stats.ts):
five independent counts for one owner; `recent_activity_count` uses
`gte(created_at, now - 7 days)`. -/
def getDashboardStats (db : DB) (now : Nat) (userId : String) : DashboardStats :=
  let sevenDaysAgo := now - 7 * dayMs
  { total_tasks := (db.tasks.filter fun t => t.user_id == userId).length
    completed_tasks :=
      (db.tasks.filter fun t =>
        t.user_id == userId && t.status == TaskStatus.completed).length
    pending_tasks :=
      (db.tasks.filter fun t =>
        t.user_id == userId && t.status == TaskStatus.pending).length
    total_documents := (db.documents.filter fun d => d.user_id == userId).length
    recent_activity_count :=
      (db.activityLog.filter fun a =>
        a.user_id == userId && sevenDaysAgo ≤ a.created_at).length }

/-! ### Concrete fixtures used by the witness theorems -/

/-- Example owner A. -/
def userA : User :=
  { id := "alice", email := "alice@example.com", first_name := "Alice",
    last_name := "A", profile_picture_url := none, created_at := 0, updated_at := 0 }

/-- Example owner B. -/
def userB : User :=
  { id := "bob", email := "bob@example.com", first_name := "Bob",
    last_name := "B", profile_picture_url := none, created_at := 0, updated_at := 0 }

/-- Example active agent. -/
def agentActive : AIAgent :=
  { id := "agent-1", name := "Boss", description := "demo", avatar_url := none,
    specialization := "productivity", is_active := true, created_at := 0 }

/-- Example inactive agent. -/
def agentInactive : AIAgent :=
  { id := "agent-2", name := "Idle", description := "demo", avatar_url := none,
    specialization := "general", is_active := false, created_at := 0 }

/-- Example task owned by alice, with a non-null description. -/
def taskA : Task :=
  { id := "task-1", user_id := "alice", title := "write report",
    description := some "quarterly", status := TaskStatus.pending,
    priority := TaskPriority.medium, due_date := some 500, created_at := 10,
    updated_at := 10 }

/-- Example document owned by alice, with a non-null description. -/
def docA : Document :=
  { id := "doc-1", user_id := "alice", name := "report.pdf",
    description := some "draft", file_url := "https://files/report.pdf",
    file_type := "application/pdf", file_size := 1024,
    folder_path := some "work", created_at := 10, updated_at := 10 }

/-- Example store with both owners, one task and one document under alice,
and the two agents. -/
def exampleDB : DB :=
  { users := [userA, userB], tasks := [taskA], documents := [docA],
    aiAgents := [agentActive, agentInactive], chatMessages := [],
    activityLog := [] }

/-- A partial update input for tasks with every optional key absent. -/
def emptyTaskInput (id : String) : UpdateTaskInput :=
  { id := id, title := none, description := none, status := none,
    priority := none, due_date := none }

/-- A partial update input for documents with every optional key absent. -/
def emptyDocumentInput (id : String) : UpdateDocumentInput :=
  { id := id, name := none, description := none, folder_path := none }

/-- The shape §4.1 prescribes for a mutating update: the handler issues
exactly one store statement, an update whose WHERE clause conjoins the
entity id and the owner id. -/
def IsAtomicCombinedUpdate (ops : List StoreOp) : Prop :=
  ∃ table, ops = [StoreOp.update table true true]

/-- A store with no rows at all. -/
def emptyDB : DB :=
  { users := [], tasks := [], documents := [], aiAgents := [], chatMessages := [],
    activityLog := [] }

/-- Call time used with `statsDB`. -/
def statsNow : Nat := 20 * dayMs

/-- Store for the dashboard scenario: alice owns one completed, one pending
and one in-progress task, one document, one activity row 10 days old and one
3 days old; bob owns one task and one activity row of his own. -/
def statsDB : DB :=
  { users := [userA, userB]
    tasks :=
      [{ id := "task-c", user_id := "alice", title := "done",
         description := none, status := TaskStatus.completed,
         priority := TaskPriority.low, due_date := none, created_at := 1,
         updated_at := 1 },
       { id := "task-p", user_id := "alice", title := "todo",
         description := none, status := TaskStatus.pending,
         priority := TaskPriority.medium, due_date := none, created_at := 2,
         updated_at := 2 },
       { id := "task-i", user_id := "alice", title := "doing",
         description := none, status := TaskStatus.in_progress,
         priority := TaskPriority.high, due_date := none, created_at := 3,
         updated_at := 3 },
       { id := "task-b", user_id := "bob", title := "other",
         description := none, status := TaskStatus.pending,
         priority := TaskPriority.medium, due_date := none, created_at := 4,
         updated_at := 4 }]
    documents := [docA]
    aiAgents := [agentActive, agentInactive]
    chatMessages := []
    activityLog :=
      [{ id := "act-old", user_id := "alice", action := "created",
         description := "ten days ago", entity_type := some ActivityEntityType.task,
         entity_id := some "task-c", created_at := 10 * dayMs },
       { id := "act-new", user_id := "alice", action := "updated",
         description := "three days ago",
         entity_type := some ActivityEntityType.document,
         entity_id := some "doc-1", created_at := 17 * dayMs },
       { id := "act-bob", user_id := "bob", action := "created",
         description := "bob", entity_type := none, entity_id := none,
         created_at := 19 * dayMs }] }

/-- Store for the list-ordering scenario: three rows per listed table for
alice at strictly increasing timestamps, plus a row of bob's in each. -/
def listDB : DB :=
  { users := [userA, userB]
    tasks :=
      [{ id := "lt-1", user_id := "alice", title := "first", description := none,
         status := TaskStatus.pending, priority := TaskPriority.low,
         due_date := none, created_at := 1, updated_at := 1 },
       { id := "lt-2", user_id := "alice", title := "second", description := none,
         status := TaskStatus.pending, priority := TaskPriority.low,
         due_date := none, created_at := 2, updated_at := 2 },
       { id := "lt-3", user_id := "alice", title := "third", description := none,
         status := TaskStatus.pending, priority := TaskPriority.low,
         due_date := none, created_at := 3, updated_at := 3 },
       { id := "lt-b", user_id := "bob", title := "bobs", description := none,
         status := TaskStatus.pending, priority := TaskPriority.low,
         due_date := none, created_at := 4, updated_at := 4 }]
    documents :=
      [{ id := "ld-1", user_id := "alice", name := "one", description := none,
         file_url := "u1", file_type := "txt", file_size := 1,
         folder_path := none, created_at := 1, updated_at := 1 },
       { id := "ld-2", user_id := "alice", name := "two", description := none,
         file_url := "u2", file_type := "txt", file_size := 1,
         folder_path := some "work", created_at := 2, updated_at := 2 },
       { id := "ld-3", user_id := "alice", name := "three", description := none,
         file_url := "u3", file_type := "txt", file_size := 1,
         folder_path := some "work", created_at := 3, updated_at := 3 },
       { id := "ld-b", user_id := "bob", name := "bobs", description := none,
         file_url := "u4", file_type := "txt", file_size := 1,
         folder_path := none, created_at := 4, updated_at := 4 }]
    aiAgents := [agentActive, agentInactive]
    chatMessages :=
      [{ id := "lm-1", user_id := "alice", agent_id := "agent-1",
         message := "hi", response := none, is_user_message := true,
         created_at := 1 },
       { id := "lm-2", user_id := "alice", agent_id := "agent-1",
         message := "hi", response := some "hello", is_user_message := false,
         created_at := 2 },
       { id := "lm-3", user_id := "alice", agent_id := "agent-1",
         message := "more", response := none, is_user_message := true,
         created_at := 3 },
       { id := "lm-b", user_id := "bob", agent_id := "agent-1",
         message := "bob", response := none, is_user_message := true,
         created_at := 4 }]
    activityLog :=
      [{ id := "la-1", user_id := "alice", action := "a1", description := "x",
         entity_type := none, entity_id := none, created_at := 1 },
       { id := "la-2", user_id := "alice", action := "a2", description := "x",
         entity_type := none, entity_id := none, created_at := 2 },
       { id := "la-3", user_id := "alice", action := "a3", description := "x",
         entity_type := none, entity_id := none, created_at := 3 },
       { id := "la-b", user_id := "bob", action := "a4", description := "x",
         entity_type := none, entity_id := none, created_at := 4 }] }

/-! ### Helper lemmas -/

theorem taskOwnedPred_iff {taskId userId : String} {t : Task} :
    taskOwnedPred taskId userId t = true ↔ t.id = taskId ∧ t.user_id = userId := by
  simp [taskOwnedPred]

theorem documentOwnedPred_iff {documentId userId : String} {d : Document} :
    documentOwnedPred documentId userId d = true ↔
      d.id = documentId ∧ d.user_id = userId := by
  simp [documentOwnedPred]

/-- Under a wrong owner the combined task predicate matches nothing, given
that `t` is the unique row with its id. -/
theorem tasks_filter_wrong_owner {db : DB} {t : Task} {A B : String}
    (ht : t ∈ db.tasks) (htA : t.user_id = A)
    (htu : ∀ t' ∈ db.tasks, t'.id = t.id → t' = t) (hAB : A ≠ B) :
    db.tasks.filter (taskOwnedPred t.id B) = [] := by
  rw [List.filter_eq_nil_iff]
  intro t' ht' h
  rw [taskOwnedPred_iff] at h
  have heq := htu t' ht' h.1
  subst heq
  exact hAB (htA.symm.trans h.2)

/-- Under a wrong owner the combined document predicate matches nothing. -/
theorem documents_filter_wrong_owner {db : DB} {d : Document} {A B : String}
    (hd : d ∈ db.documents) (hdA : d.user_id = A)
    (hdu : ∀ d' ∈ db.documents, d'.id = d.id → d' = d) (hAB : A ≠ B) :
    db.documents.filter (documentOwnedPred d.id B) = [] := by
  rw [List.filter_eq_nil_iff]
  intro d' hd' h
  rw [documentOwnedPred_iff] at h
  have heq := hdu d' hd' h.1
  subst heq
  exact hAB (hdA.symm.trans h.2)

/-- An id matched by no task row makes the combined predicate empty. -/
theorem tasks_filter_no_id {db : DB} {userId : String} {taskId : String}
    (h : ∀ t' ∈ db.tasks, t'.id ≠ taskId) :
    db.tasks.filter (taskOwnedPred taskId userId) = [] := by
  rw [List.filter_eq_nil_iff]
  intro t' ht' hp
  rw [taskOwnedPred_iff] at hp
  exact h t' ht' hp.1

/-- An id matched by no document row makes the combined predicate empty. -/
theorem documents_filter_no_id {db : DB} {userId : String} {documentId : String}
    (h : ∀ d' ∈ db.documents, d'.id ≠ documentId) :
    db.documents.filter (documentOwnedPred documentId userId) = [] := by
  rw [List.filter_eq_nil_iff]
  intro d' hd' hp
  rw [documentOwnedPred_iff] at hp
  exact h d' hd' hp.1

/-- The owner's own row satisfies the combined task predicate. -/
theorem mem_tasks_filter_owner {db : DB} {t : Task} {A : String}
    (ht : t ∈ db.tasks) (htA : t.user_id = A) :
    t ∈ db.tasks.filter (taskOwnedPred t.id A) :=
  List.mem_filter.mpr ⟨ht, taskOwnedPred_iff.mpr ⟨rfl, htA⟩⟩

/-- The owner's own row satisfies the combined document predicate. -/
theorem mem_documents_filter_owner {db : DB} {d : Document} {A : String}
    (hd : d ∈ db.documents) (hdA : d.user_id = A) :
    d ∈ db.documents.filter (documentOwnedPred d.id A) :=
  List.mem_filter.mpr ⟨hd, documentOwnedPred_iff.mpr ⟨rfl, hdA⟩⟩

/-- updateTask on a predicate matching nothing returns the uniform error and
leaves the store untouched. -/
theorem updateTask_filter_nil {db : DB} {now : Nat} {userId : String}
    {input : UpdateTaskInput}
    (h : db.tasks.filter (taskOwnedPred input.id userId) = []) :
    updateTask db now userId input =
      (Except.error "Task not found or access denied", db,
        [StoreOp.select "tasks" true true]) := by
  unfold updateTask
  rw [h]

/-- updateDocument on a predicate matching nothing returns the uniform error
and leaves the store untouched. -/
theorem updateDocument_filter_nil {db : DB} {now : Nat} {userId : String}
    {input : UpdateDocumentInput}
    (h : db.documents.filter (documentOwnedPred input.id userId) = []) :
    updateDocument db now userId input =
      (Except.error "Document not found or access denied", db,
        [StoreOp.update "documents" true true]) := by
  unfold updateDocument
  rw [h]

/-- When the combined predicate matches, updateTask applies the partial
update to every matching row and returns the first one, updated. -/
theorem updateTask_filter_cons {db : DB} {now : Nat} {userId : String}
    {input : UpdateTaskInput} {t : Task} {ts : List Task}
    (h : db.tasks.filter (taskOwnedPred input.id userId) = t :: ts) :
    updateTask db now userId input =
      (Except.ok (applyTaskUpdate now input t),
        { db with tasks := db.tasks.map fun r =>
            if taskOwnedPred input.id userId r then applyTaskUpdate now input r
            else r },
        [StoreOp.select "tasks" true true, StoreOp.update "tasks" true true]) := by
  unfold updateTask
  rw [h]

/-- When the combined predicate matches, updateDocument applies the partial
update to every matching row and returns the first one, updated. -/
theorem updateDocument_filter_cons {db : DB} {now : Nat} {userId : String}
    {input : UpdateDocumentInput} {d : Document} {ds : List Document}
    (h : db.documents.filter (documentOwnedPred input.id userId) = d :: ds) :
    updateDocument db now userId input =
      (Except.ok (applyDocumentUpdate now input d),
        { db with documents := db.documents.map fun r =>
            if documentOwnedPred input.id userId r then applyDocumentUpdate now input r
            else r },
        [StoreOp.update "documents" true true]) := by
  unfold updateDocument
  rw [h]

/-- For the unique owned row, the combined filter starts with that row and
any remaining matches are duplicates of it. -/
theorem tasks_filter_owner_cons {db : DB} {t : Task} {A : String}
    (ht : t ∈ db.tasks) (htA : t.user_id = A)
    (htu : ∀ t' ∈ db.tasks, t'.id = t.id → t' = t) :
    ∃ ts, db.tasks.filter (taskOwnedPred t.id A) = t :: ts := by
  have hmem := mem_tasks_filter_owner ht htA
  rcases hf : db.tasks.filter (taskOwnedPred t.id A) with _ | ⟨x, xs⟩
  · rw [hf] at hmem; cases hmem
  · have hx : x ∈ db.tasks.filter (taskOwnedPred t.id A) := by
      rw [hf]; exact List.mem_cons_self x xs
    have hx' := List.mem_filter.mp hx
    have := htu x hx'.1 (taskOwnedPred_iff.mp hx'.2).1
    subst this
    exact ⟨xs, rfl⟩

/-- For the unique owned row, the combined filter starts with that row. -/
theorem documents_filter_owner_cons {db : DB} {d : Document} {A : String}
    (hd : d ∈ db.documents) (hdA : d.user_id = A)
    (hdu : ∀ d' ∈ db.documents, d'.id = d.id → d' = d) :
    ∃ ds, db.documents.filter (documentOwnedPred d.id A) = d :: ds := by
  have hmem := mem_documents_filter_owner hd hdA
  rcases hf : db.documents.filter (documentOwnedPred d.id A) with _ | ⟨x, xs⟩
  · rw [hf] at hmem; cases hmem
  · have hx : x ∈ db.documents.filter (documentOwnedPred d.id A) := by
      rw [hf]; exact List.mem_cons_self x xs
    have hx' := List.mem_filter.mp hx
    have := hdu x hx'.1 (documentOwnedPred_iff.mp hx'.2).1
    subst this
    exact ⟨xs, rfl⟩

/-- deleteTask with a predicate matching nothing reports `false` and leaves
the store untouched. -/
theorem deleteTask_no_match {db : DB} {userId taskId : String}
    (h : db.tasks.filter (taskOwnedPred taskId userId) = []) :
    deleteTask db userId taskId = (false, db) := by
  have h2 : db.tasks.filter (fun t => !taskOwnedPred taskId userId t) = db.tasks := by
    rw [List.filter_eq_self]
    intro a ha
    have := List.filter_eq_nil_iff.mp h a ha
    simpa using this
  unfold deleteTask
  rw [h, h2]
  rfl

/-- deleteDocument with a predicate matching nothing reports `false` and
leaves the store untouched. -/
theorem deleteDocument_no_match {db : DB} {userId documentId : String}
    (h : db.documents.filter (documentOwnedPred documentId userId) = []) :
    deleteDocument db userId documentId = (false, db) := by
  unfold deleteDocument
  rw [h]

/-- C1 (ownership isolation): for distinct owners `A ≠ B` and a task `t` and
document `d` created under `A` (the unique rows carrying their ids),
updateTask/updateDocument called by `B` with that id fail with the uniform
"not found or access denied" error, deleteTask/deleteDocument called by `B`
return `false` leaving the store intact, updateTask/updateDocument called by
`A` succeed, and the very same error is produced when no row carries the
requested id at all — missing entity and foreign-owned entity are
indistinguishable from the error. -/
theorem ownership_isolation
    (db : DB) (now : Nat) (A B : String) (t : Task) (d : Document)
    (inputT : UpdateTaskInput) (inputD : UpdateDocumentInput)
    (hAB : A ≠ B)
    (ht : t ∈ db.tasks) (htA : t.user_id = A)
    (htu : ∀ t' ∈ db.tasks, t'.id = t.id → t' = t)
    (hd : d ∈ db.documents) (hdA : d.user_id = A)
    (hdu : ∀ d' ∈ db.documents, d'.id = d.id → d' = d)
    (hit : inputT.id = t.id) (hid : inputD.id = d.id) :
    (updateTask db now B inputT).1 = Except.error "Task not found or access denied" ∧
    (updateDocument db now B inputD).1 =
      Except.error "Document not found or access denied" ∧
    deleteTask db B t.id = (false, db) ∧
    deleteDocument db B d.id = (false, db) ∧
    (∃ r, (updateTask db now A inputT).1 = Except.ok r) ∧
    (∃ r, (updateDocument db now A inputD).1 = Except.ok r) ∧
    (∀ inp : UpdateTaskInput, (∀ t' ∈ db.tasks, t'.id ≠ inp.id) →
      (updateTask db now B inp).1 = Except.error "Task not found or access denied") ∧
    (∀ inp : UpdateDocumentInput, (∀ d' ∈ db.documents, d'.id ≠ inp.id) →
      (updateDocument db now B inp).1 =
        Except.error "Document not found or access denied") := by
  have hTnil : db.tasks.filter (taskOwnedPred inputT.id B) = [] := by
    rw [hit]; exact tasks_filter_wrong_owner ht htA htu hAB
  have hDnil : db.documents.filter (documentOwnedPred inputD.id B) = [] := by
    rw [hid]; exact documents_filter_wrong_owner hd hdA hdu hAB
  refine ⟨?_, ?_, ?_, ?_, ?_, ?_, ?_, ?_⟩
  · rw [updateTask_filter_nil hTnil]
  · rw [updateDocument_filter_nil hDnil]
  · exact deleteTask_no_match (tasks_filter_wrong_owner ht htA htu hAB)
  · exact deleteDocument_no_match (documents_filter_wrong_owner hd hdA hdu hAB)
  · obtain ⟨ts, hts⟩ := tasks_filter_owner_cons ht htA htu
    rw [← hit] at hts
    rw [updateTask_filter_cons hts]
    exact ⟨_, rfl⟩
  · obtain ⟨ds, hds⟩ := documents_filter_owner_cons hd hdA hdu
    rw [← hid] at hds
    rw [updateDocument_filter_cons hds]
    exact ⟨_, rfl⟩
  · intro inp hinp
    rw [updateTask_filter_nil (tasks_filter_no_id hinp)]
  · intro inp hinp
    rw [updateDocument_filter_nil (documents_filter_no_id hinp)]

/-- C1 witness: the isolation theorem applied to the concrete example store
with owners alice and bob. -/
theorem ownership_isolation_witness :
    (updateTask exampleDB 100 "bob" (emptyTaskInput "task-1")).1 =
      Except.error "Task not found or access denied" ∧
    (updateDocument exampleDB 100 "bob" (emptyDocumentInput "doc-1")).1 =
      Except.error "Document not found or access denied" ∧
    deleteTask exampleDB "bob" taskA.id = (false, exampleDB) ∧
    deleteDocument exampleDB "bob" docA.id = (false, exampleDB) ∧
    (∃ r, (updateTask exampleDB 100 "alice" (emptyTaskInput "task-1")).1 =
      Except.ok r) ∧
    (∃ r, (updateDocument exampleDB 100 "alice" (emptyDocumentInput "doc-1")).1 =
      Except.ok r) ∧
    (∀ inp : UpdateTaskInput, (∀ t' ∈ exampleDB.tasks, t'.id ≠ inp.id) →
      (updateTask exampleDB 100 "bob" inp).1 =
        Except.error "Task not found or access denied") ∧
    (∀ inp : UpdateDocumentInput, (∀ d' ∈ exampleDB.documents, d'.id ≠ inp.id) →
      (updateDocument exampleDB 100 "bob" inp).1 =
        Except.error "Document not found or access denied") :=
  ownership_isolation exampleDB 100 "alice" "bob" taskA docA
    (emptyTaskInput "task-1") (emptyDocumentInput "doc-1")
    (by decide) (by decide) (by decide)
    (by intro t' ht' h; simp only [exampleDB, List.mem_singleton] at ht'; exact ht')
    (by decide) (by decide)
    (by intro d' hd' h; simp only [exampleDB, List.mem_singleton] at hd'; exact hd')
    (by decide) (by decide)

/-- The owned row satisfies the combined task predicate for an input whose
id targets it. -/
theorem taskOwnedPred_self {t : Task} {A : String} {input : UpdateTaskInput}
    (hit : input.id = t.id) (htA : t.user_id = A) :
    taskOwnedPred input.id A t = true :=
  taskOwnedPred_iff.mpr ⟨hit.symm, htA⟩

/-- The owned row satisfies the combined document predicate for an input
whose id targets it. -/
theorem documentOwnedPred_self {d : Document} {A : String}
    {input : UpdateDocumentInput} (hid : input.id = d.id) (hdA : d.user_id = A) :
    documentOwnedPred input.id A d = true :=
  documentOwnedPred_iff.mpr ⟨hid.symm, hdA⟩

/-- C2 (null versus omitted): updating an owned task or document succeeds and
stores a row in which, field by field, a key explicitly present — including
present with value null — is written, while an absent key leaves the stored
value unchanged; this holds for every optional field of updateTask (title,
description, status, priority, due_date) and updateDocument (name,
description, folder_path). -/
theorem null_vs_omitted_partial_update
    (db : DB) (now : Nat) (A : String) (t : Task) (d : Document)
    (inputT : UpdateTaskInput) (inputD : UpdateDocumentInput)
    (ht : t ∈ db.tasks) (htA : t.user_id = A)
    (htu : ∀ t' ∈ db.tasks, t'.id = t.id → t' = t)
    (hd : d ∈ db.documents) (hdA : d.user_id = A)
    (hdu : ∀ d' ∈ db.documents, d'.id = d.id → d' = d)
    (hit : inputT.id = t.id) (hid : inputD.id = d.id) :
    (∃ r, (updateTask db now A inputT).1 = Except.ok r ∧
      r ∈ (updateTask db now A inputT).2.1.tasks ∧
      (∀ v, inputT.description = some v → r.description = v) ∧
      (inputT.description = none → r.description = t.description) ∧
      (∀ v, inputT.due_date = some v → r.due_date = v) ∧
      (inputT.due_date = none → r.due_date = t.due_date) ∧
      (∀ v, inputT.title = some v → r.title = v) ∧
      (inputT.title = none → r.title = t.title) ∧
      (∀ v, inputT.status = some v → r.status = v) ∧
      (inputT.status = none → r.status = t.status) ∧
      (∀ v, inputT.priority = some v → r.priority = v) ∧
      (inputT.priority = none → r.priority = t.priority)) ∧
    (∃ r, (updateDocument db now A inputD).1 = Except.ok r ∧
      r ∈ (updateDocument db now A inputD).2.1.documents ∧
      (∀ v, inputD.description = some v → r.description = v) ∧
      (inputD.description = none → r.description = d.description) ∧
      (∀ v, inputD.folder_path = some v → r.folder_path = v) ∧
      (inputD.folder_path = none → r.folder_path = d.folder_path) ∧
      (∀ v, inputD.name = some v → r.name = v) ∧
      (inputD.name = none → r.name = d.name)) := by
  constructor
  · obtain ⟨ts, hts⟩ := tasks_filter_owner_cons ht htA htu
    rw [← hit] at hts
    have hupd := @updateTask_filter_cons db now A inputT t ts hts
    refine ⟨applyTaskUpdate now inputT t, ?_, ?_, ?_, ?_, ?_, ?_, ?_, ?_, ?_, ?_, ?_, ?_⟩
    · rw [hupd]
    · rw [hupd]
      exact List.mem_map.mpr ⟨t, ht, by rw [if_pos (taskOwnedPred_self hit htA)]⟩
    all_goals
      first
        | (intro v hv; simp [applyTaskUpdate, hv])
        | (intro hv; simp [applyTaskUpdate, hv])
  · obtain ⟨ds, hds⟩ := documents_filter_owner_cons hd hdA hdu
    rw [← hid] at hds
    have hupd := @updateDocument_filter_cons db now A inputD d ds hds
    refine ⟨applyDocumentUpdate now inputD d, ?_, ?_, ?_, ?_, ?_, ?_, ?_, ?_⟩
    · rw [hupd]
    · rw [hupd]
      exact List.mem_map.mpr ⟨d, hd, by rw [if_pos (documentOwnedPred_self hid hdA)]⟩
    all_goals
      first
        | (intro v hv; simp [applyDocumentUpdate, hv])
        | (intro hv; simp [applyDocumentUpdate, hv])

/-- C2 witness: the null-versus-omitted theorem applied to the example
store, instantiated with inputs setting description explicitly to null. -/
theorem null_vs_omitted_partial_update_witness :
    (∃ r, (updateTask exampleDB 100 "alice"
        { id := "task-1", title := none, description := some none,
          status := none, priority := none, due_date := none }).1 = Except.ok r ∧
      r ∈ (updateTask exampleDB 100 "alice"
        { id := "task-1", title := none, description := some none,
          status := none, priority := none, due_date := none }).2.1.tasks ∧
      (∀ v, (some (none : Option String) : Option (Option String)) = some v →
        r.description = v) ∧
      ((some (none : Option String) : Option (Option String)) = none →
        r.description = taskA.description) ∧
      (∀ v, (none : Option (Option Nat)) = some v → r.due_date = v) ∧
      ((none : Option (Option Nat)) = none → r.due_date = taskA.due_date) ∧
      (∀ v, (none : Option String) = some v → r.title = v) ∧
      ((none : Option String) = none → r.title = taskA.title) ∧
      (∀ v, (none : Option TaskStatus) = some v → r.status = v) ∧
      ((none : Option TaskStatus) = none → r.status = taskA.status) ∧
      (∀ v, (none : Option TaskPriority) = some v → r.priority = v) ∧
      ((none : Option TaskPriority) = none → r.priority = taskA.priority)) ∧
    (∃ r, (updateDocument exampleDB 100 "alice"
        { id := "doc-1", name := none, description := some none,
          folder_path := none }).1 = Except.ok r ∧
      r ∈ (updateDocument exampleDB 100 "alice"
        { id := "doc-1", name := none, description := some none,
          folder_path := none }).2.1.documents ∧
      (∀ v, (some (none : Option String) : Option (Option String)) = some v →
        r.description = v) ∧
      ((some (none : Option String) : Option (Option String)) = none →
        r.description = docA.description) ∧
      (∀ v, (none : Option (Option String)) = some v → r.folder_path = v) ∧
      ((none : Option (Option String)) = none → r.folder_path = docA.folder_path) ∧
      (∀ v, (none : Option String) = some v → r.name = v) ∧
      ((none : Option String) = none → r.name = docA.name)) :=
  null_vs_omitted_partial_update exampleDB 100 "alice" taskA docA
    { id := "task-1", title := none, description := some none, status := none,
      priority := none, due_date := none }
    { id := "doc-1", name := none, description := some none, folder_path := none }
    (by decide) (by decide)
    (by intro t' ht' h; simp only [exampleDB, List.mem_singleton] at ht'; exact ht')
    (by decide) (by decide)
    (by intro d' hd' h; simp only [exampleDB, List.mem_singleton] at hd'; exact hd')
    (by decide) (by decide)

/-- deleteDocument's boolean result equals "some row matched the combined
predicate" — the preliminary select only short-circuits the no-match case. -/
theorem deleteDocument_fst (db : DB) (userId documentId : String) :
    (deleteDocument db userId documentId).1 =
      decide (0 < (db.documents.filter (documentOwnedPred documentId userId)).length) := by
  unfold deleteDocument
  rcases hf : db.documents.filter (documentOwnedPred documentId userId) with _ | ⟨x, xs⟩
  · simp
  · simp

/-- deleteDocument removes exactly the rows matching the combined predicate. -/
theorem deleteDocument_snd (db : DB) (userId documentId : String) :
    (deleteDocument db userId documentId).2.documents =
      db.documents.filter fun d => !documentOwnedPred documentId userId d := by
  unfold deleteDocument
  rcases hf : db.documents.filter (documentOwnedPred documentId userId) with _ | ⟨x, xs⟩
  · have := List.filter_eq_nil_iff.mp hf
    simp only
    symm
    rw [List.filter_eq_self]
    intro a ha
    simpa using this a ha
  · rfl

/-- Filtering for the combined predicate after its complement yields
nothing. -/
theorem filter_pred_after_not {α : Type} (p : α → Bool) (l : List α) :
    (l.filter fun a => !p a).filter p = [] := by
  rw [List.filter_filter]
  rw [List.filter_eq_nil_iff]
  intro a _ h
  rcases hpa : p a with _ | _ <;> simp [hpa] at h

/-- A duplicate-free list whose elements are all equal has at most one
element. -/
theorem length_le_one_of_nodup_const {α : Type} {l : List α} {c : α}
    (hnd : l.Nodup) (hc : ∀ x ∈ l, x = c) : l.length ≤ 1 := by
  match l with
  | [] => simp
  | [a] => simp
  | a :: b :: rest =>
      exfalso
      have hab : a ≠ b := by
        intro h
        exact (List.nodup_cons.mp hnd).1 (h ▸ List.mem_cons_self b rest)
      exact hab ((hc a (by simp)).trans (hc b (by simp)).symm)

/-- When row keys are duplicate-free, a filter whose predicate pins the key
and that matches the row `a` keeps exactly one row. -/
theorem filter_key_length_one {α β : Type} [DecidableEq β] (key : α → β)
    {l : List α} {p : α → Bool} {a : α} {k : β}
    (hnd : (l.map key).Nodup) (ha : a ∈ l) (hpa : p a = true)
    (hk : ∀ x, p x = true → key x = k) :
    (l.filter p).length = 1 := by
  have hmapsub : ((l.filter p).map key).Sublist (l.map key) :=
    (List.filter_sublist l).map key
  have hndf : ((l.filter p).map key).Nodup := hnd.sublist hmapsub
  have hconst : ∀ x ∈ (l.filter p).map key, x = k := by
    intro x hx
    obtain ⟨y, hy, rfl⟩ := List.mem_map.mp hx
    exact hk y (List.mem_filter.mp hy).2
  have hle : ((l.filter p).map key).length ≤ 1 :=
    length_le_one_of_nodup_const hndf hconst
  rw [List.length_map] at hle
  have hpos : 0 < (l.filter p).length :=
    List.length_pos_of_mem (List.mem_filter.mpr ⟨ha, hpa⟩)
  omega

/-- C3 (delete result semantics): deleteTask/deleteDocument return true
exactly when a row matching `(id, owner)` exists — absence yields false, not
an exception, since the handlers return `Bool` — a repeated delete with the
same arguments returns false, and when the matching owned row is unique the
first delete returns true and removes exactly one row. -/
theorem delete_result_semantics (db : DB) (userId entityId : String) :
    ((deleteTask db userId entityId).1 = true ↔
      ∃ t ∈ db.tasks, t.id = entityId ∧ t.user_id = userId) ∧
    ((deleteDocument db userId entityId).1 = true ↔
      ∃ d ∈ db.documents, d.id = entityId ∧ d.user_id = userId) ∧
    (deleteTask (deleteTask db userId entityId).2 userId entityId).1 = false ∧
    (deleteDocument (deleteDocument db userId entityId).2 userId entityId).1 =
      false ∧
    ((db.tasks.map Task.id).Nodup →
      ∀ t ∈ db.tasks, t.id = entityId → t.user_id = userId →
      (deleteTask db userId entityId).1 = true ∧
      db.tasks.length = (deleteTask db userId entityId).2.tasks.length + 1) ∧
    ((db.documents.map Document.id).Nodup →
      ∀ d ∈ db.documents, d.id = entityId → d.user_id = userId →
      (deleteDocument db userId entityId).1 = true ∧
      db.documents.length =
        (deleteDocument db userId entityId).2.documents.length + 1) := by
  refine ⟨?_, ?_, ?_, ?_, ?_, ?_⟩
  · simp [deleteTask, List.length_pos_iff_exists_mem, List.mem_filter,
      taskOwnedPred]
  · rw [deleteDocument_fst]
    simp [List.length_pos_iff_exists_mem, List.mem_filter, documentOwnedPred]
  · have h2 : (deleteTask db userId entityId).2.tasks.filter
        (taskOwnedPred entityId userId) = [] := by
      show ((db.tasks.filter _).filter _) = []
      exact filter_pred_after_not _ _
    simp [deleteTask, h2]
  · rw [deleteDocument_fst, deleteDocument_snd]
    rw [filter_pred_after_not]
    rfl
  · intro hnd t ht hid huid
    have hpa : taskOwnedPred entityId userId t = true :=
      taskOwnedPred_iff.mpr ⟨hid, huid⟩
    have hk : ∀ x : Task, taskOwnedPred entityId userId x = true → x.id = entityId :=
      fun x hx => (taskOwnedPred_iff.mp hx).1
    have hone : (db.tasks.filter (taskOwnedPred entityId userId)).length = 1 :=
      filter_key_length_one Task.id hnd ht hpa hk
    constructor
    · simp [deleteTask, hone]
    · show db.tasks.length = (db.tasks.filter _).length + 1
      have hsplit := db.tasks.length_eq_length_filter_add
        (taskOwnedPred entityId userId)
      rw [hsplit, hone]
      omega
  · intro hnd d hd hid huid
    have hpa : documentOwnedPred entityId userId d = true :=
      documentOwnedPred_iff.mpr ⟨hid, huid⟩
    have hk : ∀ x : Document,
        documentOwnedPred entityId userId x = true → x.id = entityId :=
      fun x hx => (documentOwnedPred_iff.mp hx).1
    have hone : (db.documents.filter (documentOwnedPred entityId userId)).length = 1 :=
      filter_key_length_one Document.id hnd hd hpa hk
    constructor
    · rw [deleteDocument_fst, hone]; rfl
    · rw [deleteDocument_snd]
      have hsplit := db.documents.length_eq_length_filter_add
        (documentOwnedPred entityId userId)
      rw [hsplit, hone]
      omega

/-- C3 witness: on the example store, deleting alice's task succeeds once
and only once, removes exactly one row, and deleting alice's document
reports true. -/
theorem delete_result_semantics_witness :
    (deleteTask exampleDB "alice" "task-1").1 = true ∧
    (deleteTask (deleteTask exampleDB "alice" "task-1").2 "alice" "task-1").1 =
      false ∧
    exampleDB.tasks.length =
      (deleteTask exampleDB "alice" "task-1").2.tasks.length + 1 ∧
    (deleteDocument exampleDB "alice" "doc-1").1 = true := by
  have h := delete_result_semantics exampleDB "alice" "task-1"
  have h5 := h.2.2.2.2.1 (by decide) taskA (by decide) (by decide) (by decide)
  have hdoc := delete_result_semantics exampleDB "alice" "doc-1"
  exact ⟨h5.1, h.2.2.1, h5.2, hdoc.2.1.mpr ⟨docA, by decide, by decide, by decide⟩⟩

/-- C4 counterexample: updateTask is not the single combined-predicate
update statement the claim asserts — its store trace on the example input
begins with a separate existence-check select. -/
theorem updateTask_not_atomic_counterexample :
    ¬ IsAtomicCombinedUpdate
      (updateTask exampleDB 100 "alice" (emptyTaskInput "task-1")).2.2 := by
  intro h
  obtain ⟨table, htab⟩ := h
  have htr : (updateTask exampleDB 100 "alice" (emptyTaskInput "task-1")).2.2 =
      [StoreOp.select "tasks" true true, StoreOp.update "tasks" true true] := by
    rfl
  rw [htr] at htab
  cases htab

/-- C4 amended: updateDocument performs the ownership check and the mutation
as one store update whose predicate conjoins the entity id and the owner id;
updateTask instead issues a separate existence-check read with the combined
predicate first, followed — when a row matched — by a single update whose
predicate also conjoins the entity id and the owner id. -/
theorem atomic_combined_update_amended (db : DB) (now : Nat) (userId : String)
    (inputT : UpdateTaskInput) (inputD : UpdateDocumentInput) :
    IsAtomicCombinedUpdate (updateDocument db now userId inputD).2.2 ∧
    ((updateTask db now userId inputT).2.2 =
        [StoreOp.select "tasks" true true] ∨
      (updateTask db now userId inputT).2.2 =
        [StoreOp.select "tasks" true true, StoreOp.update "tasks" true true]) := by
  constructor
  · unfold updateDocument
    rcases db.documents.filter (documentOwnedPred inputD.id userId) with _ | ⟨d, ds⟩
    · exact ⟨"documents", rfl⟩
    · exact ⟨"documents", rfl⟩
  · unfold updateTask
    rcases db.tasks.filter (taskOwnedPred inputT.id userId) with _ | ⟨t, ts⟩
    · exact Or.inl rfl
    · exact Or.inr rfl

/-- C5 counterexample: sendMessage called by a caller that does not exist,
against an agent id with no matching agent, throws the user-not-found error
— not an error naming the agent id, contradicting the claim's "for every
caller" quantification. -/
theorem sendMessage_missing_caller_counterexample :
    (sendMessage emptyDB 0 "ghost" { agent_id := "agent-1", message := "hi" }
      "m1" "m2" 0).1 = Except.error "User with id ghost not found" ∧
    (sendMessage emptyDB 0 "ghost" { agent_id := "agent-1", message := "hi" }
      "m1" "m2" 0).1 ≠
      Except.error "AI agent with id agent-1 not found" := by
  refine ⟨rfl, ?_⟩
  have h1 : (sendMessage emptyDB 0 "ghost"
      { agent_id := "agent-1", message := "hi" } "m1" "m2" 0).1 =
      Except.error "User with id ghost not found" := rfl
  rw [h1]
  intro h
  injection h with h2
  exact absurd h2 (by decide)

/-- C5 amended: for every existing caller, sendMessage against an agent id
with no matching agent throws the not-found error naming that agent id, and
against an existing agent whose is_active is false throws the distinct
not-active error also naming the agent id; in both cases no ChatMessage row
is inserted. -/
theorem sendMessage_failure_atomicity (db : DB) (now : Nat) (userId : String)
    (input : SendMessageInput) (userMessageId aiMessageId : String) (rand : Nat)
    (huser : ∃ u ∈ db.users, u.id = userId) :
    ((∀ a ∈ db.aiAgents, a.id ≠ input.agent_id) →
      (sendMessage db now userId input userMessageId aiMessageId rand).1 =
        Except.error ("AI agent with id " ++ input.agent_id ++ " not found") ∧
      (sendMessage db now userId input userMessageId aiMessageId rand).2.chatMessages =
        db.chatMessages) ∧
    (∀ agent ∈ db.aiAgents, agent.id = input.agent_id → agent.is_active = false →
      (∀ a' ∈ db.aiAgents, a'.id = agent.id → a' = agent) →
      (sendMessage db now userId input userMessageId aiMessageId rand).1 =
        Except.error ("AI agent with id " ++ input.agent_id ++ " is not active") ∧
      (sendMessage db now userId input userMessageId aiMessageId rand).2.chatMessages =
        db.chatMessages) := by
  obtain ⟨u, hu, huid⟩ := huser
  have husers : (db.users.filter fun v => v.id == userId).isEmpty = false := by
    have : u ∈ db.users.filter fun v => v.id == userId :=
      List.mem_filter.mpr ⟨hu, by simp [huid]⟩
    rcases hf : db.users.filter fun v => v.id == userId with _ | ⟨x, xs⟩
    · rw [hf] at this; cases this
    · rw [hf]; rfl
  constructor
  · intro hagents
    have hnil : db.aiAgents.filter (fun a => a.id == input.agent_id) = [] := by
      rw [List.filter_eq_nil_iff]
      intro a ha hpa
      exact hagents a ha (by simpa using hpa)
    unfold sendMessage
    rw [husers, hnil]
    exact ⟨rfl, rfl⟩
  · intro agent hagent hagid hinactive huniq
    have hcons : ∃ rest,
        db.aiAgents.filter (fun a => a.id == input.agent_id) = agent :: rest := by
      have hmem : agent ∈ db.aiAgents.filter fun a => a.id == input.agent_id :=
        List.mem_filter.mpr ⟨hagent, by simp [hagid]⟩
      rcases hf : db.aiAgents.filter fun a => a.id == input.agent_id with _ | ⟨x, xs⟩
      · rw [hf] at hmem; cases hmem
      · have hx : x ∈ db.aiAgents.filter fun a => a.id == input.agent_id := by
          rw [hf]; exact List.mem_cons_self x xs
        have hx' := List.mem_filter.mp hx
        have hxid : x.id = agent.id := by
          have : x.id = input.agent_id := by simpa using hx'.2
          rw [this, hagid]
        have := huniq x hx'.1 hxid
        subst this
        exact ⟨xs, hf⟩
    obtain ⟨rest, hrest⟩ := hcons
    unfold sendMessage
    rw [husers, hrest]
    simp [hinactive]

/-- C5 witness: on the example store, alice messaging a missing agent id and
the inactive agent gets the two distinct errors, and no chat row is
persisted in either case. -/
theorem sendMessage_failure_atomicity_witness :
    (sendMessage exampleDB 5 "alice" { agent_id := "nope", message := "hi" }
      "m1" "m2" 0).1 = Except.error "AI agent with id nope not found" ∧
    (sendMessage exampleDB 5 "alice" { agent_id := "nope", message := "hi" }
      "m1" "m2" 0).2.chatMessages = exampleDB.chatMessages ∧
    (sendMessage exampleDB 5 "alice" { agent_id := "agent-2", message := "hi" }
      "m1" "m2" 0).1 = Except.error "AI agent with id agent-2 is not active" ∧
    (sendMessage exampleDB 5 "alice" { agent_id := "agent-2", message := "hi" }
      "m1" "m2" 0).2.chatMessages = exampleDB.chatMessages := by
  have h1 := sendMessage_failure_atomicity exampleDB 5 "alice"
    { agent_id := "nope", message := "hi" } "m1" "m2" 0
    ⟨userA, by decide, by decide⟩
  have h2 := sendMessage_failure_atomicity exampleDB 5 "alice"
    { agent_id := "agent-2", message := "hi" } "m1" "m2" 0
    ⟨userA, by decide, by decide⟩
  have ha := h1.1 (by decide)
  have hb := h2.2 agentInactive (by decide) (by decide) (by decide) (by decide)
  exact ⟨ha.1, ha.2, hb.1, hb.2⟩

/-- C6 (chat exchange success shape): for an existing caller and an active
agent (the unique agent row with the requested id), sendMessage appends
exactly two rows sharing the same user_id, agent_id and message — first the
user-authored row with is_user_message true and response null, then the
agent-authored row with is_user_message false and a non-null generated
response — and returns the agent-authored row. -/
theorem sendMessage_success_shape (db : DB) (now : Nat) (userId : String)
    (input : SendMessageInput) (userMessageId aiMessageId : String) (rand : Nat)
    (agent : AIAgent)
    (huser : ∃ u ∈ db.users, u.id = userId)
    (hagent : agent ∈ db.aiAgents) (hagid : agent.id = input.agent_id)
    (huniq : ∀ a' ∈ db.aiAgents, a'.id = agent.id → a' = agent)
    (hactive : agent.is_active = true) :
    ∃ resp : String,
      (sendMessage db now userId input userMessageId aiMessageId rand).1 =
        Except.ok
          { id := aiMessageId, user_id := userId, agent_id := input.agent_id,
            message := input.message, response := some resp,
            is_user_message := false, created_at := now } ∧
      (sendMessage db now userId input userMessageId aiMessageId rand).2.chatMessages =
        db.chatMessages ++
          [{ id := userMessageId, user_id := userId, agent_id := input.agent_id,
             message := input.message, response := none, is_user_message := true,
             created_at := now },
           { id := aiMessageId, user_id := userId, agent_id := input.agent_id,
             message := input.message, response := some resp,
             is_user_message := false, created_at := now }] := by
  obtain ⟨u, hu, huid⟩ := huser
  have husers : (db.users.filter fun v => v.id == userId).isEmpty = false := by
    have hm : u ∈ db.users.filter fun v => v.id == userId :=
      List.mem_filter.mpr ⟨hu, by simp [huid]⟩
    rcases hf : db.users.filter fun v => v.id == userId with _ | ⟨x, xs⟩
    · rw [hf] at hm; cases hm
    · rw [hf]; rfl
  have hcons : ∃ rest,
      db.aiAgents.filter (fun a => a.id == input.agent_id) = agent :: rest := by
    have hmem : agent ∈ db.aiAgents.filter fun a => a.id == input.agent_id :=
      List.mem_filter.mpr ⟨hagent, by simp [hagid]⟩
    rcases hf : db.aiAgents.filter fun a => a.id == input.agent_id with _ | ⟨x, xs⟩
    · rw [hf] at hmem; cases hmem
    · have hx : x ∈ db.aiAgents.filter fun a => a.id == input.agent_id := by
        rw [hf]; exact List.mem_cons_self x xs
      have hx' := List.mem_filter.mp hx
      have hxid : x.id = agent.id := by
        have : x.id = input.agent_id := by simpa using hx'.2
        rw [this, hagid]
      have := huniq x hx'.1 hxid
      subst this
      exact ⟨xs, hf⟩
  obtain ⟨rest, hrest⟩ := hcons
  refine ⟨generateAIResponse input.message agent.specialization rand, ?_, ?_⟩
  · unfold sendMessage
    rw [husers, hrest]
    simp [hactive]
  · unfold sendMessage
    rw [husers, hrest]
    simp [hactive]

/-- C6 witness: alice messaging the active productivity agent on the example
store, with the random pick landing on the first canned sentence. -/
theorem sendMessage_success_shape_witness :
    ∃ resp : String,
      (sendMessage exampleDB 7 "alice" { agent_id := "agent-1", message := "hi" }
        "m1" "m2" 0).1 =
        Except.ok
          { id := "m2", user_id := "alice", agent_id := "agent-1",
            message := "hi", response := some resp, is_user_message := false,
            created_at := 7 } ∧
      (sendMessage exampleDB 7 "alice" { agent_id := "agent-1", message := "hi" }
        "m1" "m2" 0).2.chatMessages =
        exampleDB.chatMessages ++
          [{ id := "m1", user_id := "alice", agent_id := "agent-1",
             message := "hi", response := none, is_user_message := true,
             created_at := 7 },
           { id := "m2", user_id := "alice", agent_id := "agent-1",
             message := "hi", response := some resp, is_user_message := false,
             created_at := 7 }] :=
  sendMessage_success_shape exampleDB 7 "alice"
    { agent_id := "agent-1", message := "hi" } "m1" "m2" 0 agentActive
    ⟨userA, by decide, by decide⟩ (by decide) (by decide) (by decide) (by decide)

/-- The owner's task count splits into the completed, pending and
in-progress buckets. -/
theorem countP_status_partition (l : List Task) (userId : String) :
    l.countP (fun t => t.user_id == userId) =
      l.countP (fun t => t.user_id == userId && t.status == TaskStatus.completed) +
      l.countP (fun t => t.user_id == userId && t.status == TaskStatus.pending) +
      l.countP (fun t => t.user_id == userId && t.status == TaskStatus.in_progress) := by
  induction l with
  | nil => rfl
  | cons t ts ih =>
      simp only [List.countP_cons]
      rcases hs : t.status <;> rcases hu : t.user_id == userId <;>
        simp [hs, hu] <;> omega

/-- C7 (dashboard postcondition): getDashboardStats returns five counts —
total tasks of the owner, tasks with status completed, tasks with status
pending (in-progress tasks fall in neither bucket, so the three buckets
partition the total), total documents of the owner, and activity rows with
`created_at ≥ now - 7 days` — and every count is 0 for an owner with no
rows.  The counts are `Nat`, hence non-negative. -/
theorem dashboard_stats_correct (db : DB) (now : Nat) (userId : String) :
    (getDashboardStats db now userId).total_tasks =
      db.tasks.countP (fun t => t.user_id == userId) ∧
    (getDashboardStats db now userId).completed_tasks =
      db.tasks.countP
        (fun t => t.user_id == userId && t.status == TaskStatus.completed) ∧
    (getDashboardStats db now userId).pending_tasks =
      db.tasks.countP
        (fun t => t.user_id == userId && t.status == TaskStatus.pending) ∧
    (getDashboardStats db now userId).total_tasks =
      (getDashboardStats db now userId).completed_tasks +
      (getDashboardStats db now userId).pending_tasks +
      db.tasks.countP
        (fun t => t.user_id == userId && t.status == TaskStatus.in_progress) ∧
    (getDashboardStats db now userId).total_documents =
      db.documents.countP (fun d => d.user_id == userId) ∧
    (getDashboardStats db now userId).recent_activity_count =
      db.activityLog.countP
        (fun a => a.user_id == userId && now - 7 * dayMs ≤ a.created_at) ∧
    ((∀ t ∈ db.tasks, t.user_id ≠ userId) →
      (∀ d ∈ db.documents, d.user_id ≠ userId) →
      (∀ a ∈ db.activityLog, a.user_id ≠ userId) →
      getDashboardStats db now userId =
        { total_tasks := 0, completed_tasks := 0, pending_tasks := 0,
          total_documents := 0, recent_activity_count := 0 }) := by
  refine ⟨?_, ?_, ?_, ?_, ?_, ?_, ?_⟩
  · simp [getDashboardStats, List.countP_eq_length_filter]
  · simp [getDashboardStats, List.countP_eq_length_filter]
  · simp [getDashboardStats, List.countP_eq_length_filter]
  · simp only [getDashboardStats]
    simp only [List.countP_eq_length_filter]
    have := countP_status_partition db.tasks userId
    simp only [List.countP_eq_length_filter] at this
    exact this
  · simp [getDashboardStats, List.countP_eq_length_filter]
  · simp [getDashboardStats, List.countP_eq_length_filter]
  · intro htasks hdocs hacts
    have h1 : db.tasks.filter (fun t => t.user_id == userId) = [] := by
      rw [List.filter_eq_nil_iff]; intro t ht h
      exact htasks t ht (by simpa using h)
    have h2 : db.tasks.filter
        (fun t => t.user_id == userId && t.status == TaskStatus.completed) = [] := by
      rw [List.filter_eq_nil_iff]; intro t ht h
      simp only [Bool.and_eq_true] at h
      exact htasks t ht (by simpa using h.1)
    have h3 : db.tasks.filter
        (fun t => t.user_id == userId && t.status == TaskStatus.pending) = [] := by
      rw [List.filter_eq_nil_iff]; intro t ht h
      simp only [Bool.and_eq_true] at h
      exact htasks t ht (by simpa using h.1)
    have h4 : db.documents.filter (fun d => d.user_id == userId) = [] := by
      rw [List.filter_eq_nil_iff]; intro d hd h
      exact hdocs d hd (by simpa using h)
    have h5 : db.activityLog.filter
        (fun a => a.user_id == userId && now - 7 * dayMs ≤ a.created_at) = [] := by
      rw [List.filter_eq_nil_iff]; intro a ha h
      simp only [Bool.and_eq_true] at h
      exact hacts a ha (by simpa using h.1)
    simp [getDashboardStats, h1, h2, h3, h4, h5]
    intro a ha hu
    exact absurd hu (hacts a ha)

/-- C7 witness: on the stats store alice has one completed, one pending and
one in-progress task (total 3, completed 1, pending 1), one document, one
activity row 3 days old (counted) and one 10 days old (not counted); carol,
with no rows, gets all zeros. -/
theorem dashboard_stats_correct_witness :
    getDashboardStats statsDB statsNow "carol" =
      { total_tasks := 0, completed_tasks := 0, pending_tasks := 0,
        total_documents := 0, recent_activity_count := 0 } ∧
    getDashboardStats statsDB statsNow "alice" =
      { total_tasks := 3, completed_tasks := 1, pending_tasks := 1,
        total_documents := 1, recent_activity_count := 1 } := by
  have h := dashboard_stats_correct statsDB statsNow "carol"
  refine ⟨h.2.2.2.2.2.2 (by decide) (by decide) (by decide), ?_⟩
  decide

theorem orderByCreatedAtDesc_sorted {α : Type} (f : α → Nat) (l : List α) :
    List.Sorted (newestFirst f) (orderByCreatedAtDesc f l) :=
  List.sorted_insertionSort _ l

theorem orderByCreatedAtDesc_perm {α : Type} (f : α → Nat) (l : List α) :
    List.Perm (orderByCreatedAtDesc f l) l :=
  List.perm_insertionSort _ l

theorem mem_orderByCreatedAtDesc {α : Type} {f : α → Nat} {l : List α} {a : α} :
    a ∈ orderByCreatedAtDesc f l ↔ a ∈ l :=
  (orderByCreatedAtDesc_perm f l).mem_iff

/-- C8 (read-list scoping, folder filter, ordering): every list handler
returns only rows owned by the caller (getChatHistory additionally only rows
of the requested agent), each result is sorted by created_at descending, the
unlimited handlers return exactly the owner's rows up to order, and
getDocuments applies the three-way folder filter: argument omitted — no
folder constraint; argument explicitly null — only rows with folder_path
unset; a string argument — only rows with exactly that folder_path. -/
theorem read_list_scoping_and_order (db : DB) (userId agentId : String)
    (limit : Nat) (folderPath : Option (Option String)) :
    (∀ r ∈ getTasks db userId, r.user_id = userId) ∧
    List.Sorted (newestFirst Task.created_at) (getTasks db userId) ∧
    List.Perm (getTasks db userId) (db.tasks.filter fun t => t.user_id == userId) ∧
    (∀ r ∈ getDocuments db userId folderPath, r.user_id = userId) ∧
    List.Sorted (newestFirst Document.created_at)
      (getDocuments db userId folderPath) ∧
    List.Perm (getDocuments db userId none)
      (db.documents.filter fun d => d.user_id == userId) ∧
    List.Perm (getDocuments db userId (some none))
      (db.documents.filter fun d => d.user_id == userId && d.folder_path.isNone) ∧
    (∀ p, List.Perm (getDocuments db userId (some (some p)))
      (db.documents.filter fun d =>
        d.user_id == userId && d.folder_path == some p)) ∧
    (∀ r ∈ getChatHistory db userId agentId limit,
      r.user_id = userId ∧ r.agent_id = agentId) ∧
    List.Sorted (newestFirst ChatMessage.created_at)
      (getChatHistory db userId agentId limit) ∧
    (∀ r ∈ getRecentActivity db userId limit, r.user_id = userId) ∧
    List.Sorted (newestFirst ActivityLog.created_at)
      (getRecentActivity db userId limit) := by
  refine ⟨?_, ?_, ?_, ?_, ?_, ?_, ?_, ?_, ?_, ?_, ?_, ?_⟩
  · intro r hr
    have hm := mem_orderByCreatedAtDesc.mp hr
    simpa using (List.mem_filter.mp hm).2
  · exact orderByCreatedAtDesc_sorted _ _
  · exact orderByCreatedAtDesc_perm _ _
  · intro r hr
    have hm := mem_orderByCreatedAtDesc.mp hr
    have := (List.mem_filter.mp hm).2
    simp only [Bool.and_eq_true] at this
    simpa using this.1
  · exact orderByCreatedAtDesc_sorted _ _
  · have he : (db.documents.filter fun d => d.user_id == userId && true) =
        db.documents.filter fun d => d.user_id == userId :=
      List.filter_congr (by intro a _; simp)
    show List.Perm (orderByCreatedAtDesc Document.created_at
      (db.documents.filter fun d => d.user_id == userId && true)) _
    rw [he]
    exact orderByCreatedAtDesc_perm _ _
  · exact orderByCreatedAtDesc_perm _ _
  · intro p
    exact orderByCreatedAtDesc_perm _ _
  · intro r hr
    have hm := mem_orderByCreatedAtDesc.mp ((List.take_sublist _ _).subset hr)
    have := (List.mem_filter.mp hm).2
    simp only [Bool.and_eq_true] at this
    exact ⟨by simpa using this.1, by simpa using this.2⟩
  · exact (orderByCreatedAtDesc_sorted _ _).sublist (List.take_sublist _ _)
  · intro r hr
    have hm := mem_orderByCreatedAtDesc.mp ((List.take_sublist _ _).subset hr)
    simpa using (List.mem_filter.mp hm).2
  · exact (orderByCreatedAtDesc_sorted _ _).sublist (List.take_sublist _ _)

/-- C8 witness: on the list store alice's three rows per table come back
newest first, and the folder filter "work" returns exactly her two documents
in that folder. -/
theorem read_list_scoping_and_order_witness :
    List.Sorted (newestFirst Task.created_at) (getTasks listDB "alice") ∧
    List.Perm (getTasks listDB "alice")
      (listDB.tasks.filter fun t => t.user_id == "alice") ∧
    List.Sorted (newestFirst ChatMessage.created_at)
      (getChatHistory listDB "alice" "agent-1" 50) ∧
    List.Perm (getDocuments listDB "alice" (some (some "work")))
      (listDB.documents.filter fun d =>
        d.user_id == "alice" && d.folder_path == some "work") ∧
    List.map Task.created_at (getTasks listDB "alice") = [3, 2, 1] ∧
    List.map Document.folder_path (getDocuments listDB "alice" (some none)) =
      [none] := by
  have h := read_list_scoping_and_order listDB "alice" "agent-1" 50
    (some (some "work"))
  refine ⟨h.2.1, h.2.2.1, h.2.2.2.2.2.2.2.2.2.1, h.2.2.2.2.2.2.2.1 "work", ?_, ?_⟩
  · decide
  · decide

/-- C9 (empty-update frame): updating an owned task or document with a
partial input containing no optional fields succeeds, stores a row equal to
the old one in every field except updated_at — which is set to the call time,
strictly greater than its previous value — leaves every other row in place,
and returns that stored row. -/
theorem empty_update_frame (db : DB) (now : Nat) (A : String) (t : Task)
    (d : Document)
    (ht : t ∈ db.tasks) (htA : t.user_id = A)
    (htu : ∀ t' ∈ db.tasks, t'.id = t.id → t' = t)
    (hd : d ∈ db.documents) (hdA : d.user_id = A)
    (hdu : ∀ d' ∈ db.documents, d'.id = d.id → d' = d)
    (hnowT : t.updated_at < now) (hnowD : d.updated_at < now) :
    ((updateTask db now A (emptyTaskInput t.id)).1 =
        Except.ok { t with updated_at := now } ∧
      ({ t with updated_at := now } : Task) ∈
        (updateTask db now A (emptyTaskInput t.id)).2.1.tasks ∧
      (∀ x ∈ db.tasks, x ≠ t →
        x ∈ (updateTask db now A (emptyTaskInput t.id)).2.1.tasks) ∧
      t.updated_at < ({ t with updated_at := now } : Task).updated_at) ∧
    ((updateDocument db now A (emptyDocumentInput d.id)).1 =
        Except.ok { d with updated_at := now } ∧
      ({ d with updated_at := now } : Document) ∈
        (updateDocument db now A (emptyDocumentInput d.id)).2.1.documents ∧
      (∀ x ∈ db.documents, x ≠ d →
        x ∈ (updateDocument db now A (emptyDocumentInput d.id)).2.1.documents) ∧
      d.updated_at < ({ d with updated_at := now } : Document).updated_at) := by
  constructor
  · obtain ⟨ts, hts⟩ := tasks_filter_owner_cons ht htA htu
    have hupd := @updateTask_filter_cons db now A (emptyTaskInput t.id) t ts hts
    have happ : ∀ x : Task, applyTaskUpdate now (emptyTaskInput t.id) x =
        { x with updated_at := now } := fun x => rfl
    refine ⟨?_, ?_, ?_, hnowT⟩
    · rw [hupd, happ]
    · rw [hupd]
      refine List.mem_map.mpr ⟨t, ht, ?_⟩
      rw [if_pos (taskOwnedPred_self rfl htA), happ]
    · intro x hx hne
      rw [hupd]
      refine List.mem_map.mpr ⟨x, hx, ?_⟩
      have hpx : taskOwnedPred (emptyTaskInput t.id).id A x = false := by
        rcases hb : taskOwnedPred (emptyTaskInput t.id).id A x with _ | _
        · rfl
        · exact absurd (htu x hx (taskOwnedPred_iff.mp hb).1) hne
      rw [if_neg (by simp [hpx])]
  · obtain ⟨ds, hds⟩ := documents_filter_owner_cons hd hdA hdu
    have hupd := @updateDocument_filter_cons db now A (emptyDocumentInput d.id) d ds hds
    have happ : ∀ x : Document, applyDocumentUpdate now (emptyDocumentInput d.id) x =
        { x with updated_at := now } := fun x => rfl
    refine ⟨?_, ?_, ?_, hnowD⟩
    · rw [hupd, happ]
    · rw [hupd]
      refine List.mem_map.mpr ⟨d, hd, ?_⟩
      rw [if_pos (documentOwnedPred_self rfl hdA), happ]
    · intro x hx hne
      rw [hupd]
      refine List.mem_map.mpr ⟨x, hx, ?_⟩
      have hpx : documentOwnedPred (emptyDocumentInput d.id).id A x = false := by
        rcases hb : documentOwnedPred (emptyDocumentInput d.id).id A x with _ | _
        · rfl
        · exact absurd (hdu x hx (documentOwnedPred_iff.mp hb).1) hne
      rw [if_neg (by simp [hpx])]

/-- C9 witness: the empty partial update on alice's task and document in the
example store bumps only updated_at. -/
theorem empty_update_frame_witness :
    (updateTask exampleDB 100 "alice" (emptyTaskInput "task-1")).1 =
      Except.ok { taskA with updated_at := 100 } ∧
    ({ taskA with updated_at := 100 } : Task) ∈
      (updateTask exampleDB 100 "alice" (emptyTaskInput "task-1")).2.1.tasks ∧
    taskA.updated_at < 100 ∧
    (updateDocument exampleDB 100 "alice" (emptyDocumentInput "doc-1")).1 =
      Except.ok { docA with updated_at := 100 } := by
  have h := empty_update_frame exampleDB 100 "alice" taskA docA
    (by decide) (by decide)
    (by intro t' ht' heq; simp only [exampleDB, List.mem_singleton] at ht'; exact ht')
    (by decide) (by decide)
    (by intro d' hd' heq; simp only [exampleDB, List.mem_singleton] at hd'; exact hd')
    (by decide) (by decide)
  exact ⟨h.1.1, h.1.2.1, by decide, h.2.1⟩

/-- C10 (RPC folder filter cannot carry null): the getDocuments route
declares folderPath as an optional string — no null — and forwards it
unchanged, so over the RPC surface the handler either applies no folder
constraint (argument omitted) or an exact string match; the handler's
explicit-null branch is unreachable, and a document with folder_path unset
is returned only when no folder argument was supplied. -/
theorem getDocumentsRoute_no_null (db : DB) (userId : String)
    (folderPath : Option String) :
    getDocumentsRoute db userId folderPath =
      getDocuments db userId (folderPath.map some) ∧
    (folderPath = none →
      List.Perm (getDocumentsRoute db userId folderPath)
        (db.documents.filter fun d => d.user_id == userId)) ∧
    (∀ s, folderPath = some s →
      ∀ d ∈ getDocumentsRoute db userId folderPath, d.folder_path = some s) ∧
    (∀ d ∈ getDocumentsRoute db userId folderPath,
      d.folder_path = none → folderPath = none) := by
  refine ⟨rfl, ?_, ?_, ?_⟩
  · intro h
    subst h
    have he : (db.documents.filter fun d => d.user_id == userId && true) =
        db.documents.filter fun d => d.user_id == userId :=
      List.filter_congr (by intro a _; simp)
    show List.Perm (orderByCreatedAtDesc Document.created_at
      (db.documents.filter fun d => d.user_id == userId && true)) _
    rw [he]
    exact orderByCreatedAtDesc_perm _ _
  · intro s hs r hr
    subst hs
    have hm := mem_orderByCreatedAtDesc.mp hr
    have := (List.mem_filter.mp hm).2
    simp only [Bool.and_eq_true] at this
    simpa using this.2
  · intro r hr hnone
    rcases hf : folderPath with _ | s
    · rfl
    · exfalso
      subst hf
      have hm := mem_orderByCreatedAtDesc.mp hr
      have := (List.mem_filter.mp hm).2
      simp only [Bool.and_eq_true] at this
      have hfold : r.folder_path = some s := by simpa using this.2
      rw [hnone] at hfold
      cases hfold

/-- C10 witness: on the list store, the route with folder "work" returns
only documents in that folder, the route with the argument omitted returns
all of alice's documents up to order, and the document with folder_path
unset shows up only in the omitted-argument call. -/
theorem getDocumentsRoute_no_null_witness :
    getDocumentsRoute listDB "alice" (some "work") =
      getDocuments listDB "alice" (some (some "work")) ∧
    List.Perm (getDocumentsRoute listDB "alice" none)
      (listDB.documents.filter fun d => d.user_id == "alice") ∧
    List.map Document.folder_path (getDocumentsRoute listDB "alice" (some "work")) =
      [some "work", some "work"] ∧
    List.map Document.id (getDocumentsRoute listDB "alice" none) =
      ["ld-3", "ld-2", "ld-1"] := by
  have h1 := getDocumentsRoute_no_null listDB "alice" (some "work")
  have h2 := getDocumentsRoute_no_null listDB "alice" none
  exact ⟨h1.1, h2.2.1 rfl, by decide, by decide⟩

end SoloBoss
